import Mathlib

/-!
Shallow embedding of the quest-limit-chat client (React/TypeScript) core:
the `Chat` component (src/unnamed/part_000, with src/unnamed/part_001 a
styling-only variant of the same logic), the login handler
(src/src/pages/Login.tsx) and the cookie auth service (src/src/lib/auth.ts).

Modelling conventions:
- JavaScript strings are Lean `String`s (character-level; the repo never
  manipulates surrogate pairs).
- `Date` values are epoch milliseconds (`Nat`); `Date.now()` and the time at
  which the delayed bot callback runs are explicit inputs (`SendEnv`).
- `Math.random`-derived choices (bot template index, chat-id suffix) are
  explicit inputs.
- `localStorage` and cookies are explicit maps inside a `Store` value; every
  handler is a pure state transformer.
-/

namespace QuestLimitChat

/-- The `interface Message` of Chat: id, content, isBot, timestamp (a JS `Date`,
modelled as epoch milliseconds). -/
structure Message where
  id : String
  content : String
  isBot : Bool
  timestamp : Nat
deriving DecidableEq, Repr

/-- The `interface ChatHistory` of Chat: id, title, messages, createdAt. -/
structure ChatHistory where
  id : String
  title : String
  messages : List Message
  createdAt : Nat
deriving DecidableEq, Repr

/-- The `interface UserData` of Chat: username, role, questionsToday. -/
structure UserData where
  username : String
  role : String
  questionsToday : Nat
deriving DecidableEq, Repr

/-- A JSON value, the semantic content of a `JSON.stringify` output.
Numbers in this repository are the non-negative integers written by the app
(question counts), so `num` carries a `Nat`. -/
inductive Json where
  | null : Json
  | bool (b : Bool) : Json
  | num (n : Nat) : Json
  | str (s : String) : Json
  | arr (elems : List Json) : Json
  | obj (fields : List (String × Json)) : Json

/-- A raw text blob held in `localStorage`.  We model the JS runtime pair
`JSON.stringify`/`JSON.parse` semantically: a blob is either a well-formed
JSON text, carried as its parse result, or a malformed text, carried as its
raw characters.  This captures exactly the two behaviours the repository
relies on: `JSON.parse (JSON.stringify v)` recovers `v`, and `JSON.parse` of
malformed text throws a `SyntaxError`. -/
inductive Blob where
  | json (j : Json) : Blob
  | malformed (raw : String) : Blob

/-- Model of `JSON.stringify`: produces a well-formed JSON text. -/
def jsonStringify (j : Json) : Blob := Blob.json j

/-- Model of `JSON.parse`: recovers the structure of a well-formed text and
throws (returns `.error`) on a malformed one. -/
def jsonParse : Blob → Except String Json
  | Blob.json j => Except.ok j
  | Blob.malformed _ => Except.error "SyntaxError: Unexpected token in JSON"

/-- JS truthiness of a blob used as a string: only the empty string is falsy.
A well-formed JSON text is never empty. -/
def blobTruthy : Blob → Bool
  | Blob.json _ => true
  | Blob.malformed raw => !raw.isEmpty

/-- Property lookup `fields.k` on a JSON object, first binding wins. -/
def jGet (fields : List (String × Json)) (k : String) : Option Json :=
  (fields.find? fun p => p.1 = k).map fun p => p.2

/-- Model of `Date.prototype.toISOString` at millisecond precision.  The
repository only ever feeds the produced string back to `new Date(...)`, so we
represent the ISO-8601 text by the decimal rendering of the epoch
milliseconds, which has the same round-trip semantics (an injective encoding
whose decoding recovers the exact millisecond value). -/
def isoOfMs (t : Nat) : String :=
  String.mk (((Nat.digits 10 t).map fun d => Char.ofNat (48 + d)).reverse)

/-- Model of `new Date(isoString).getTime()`: the inverse decoding of
`isoOfMs`, millisecond-exact. -/
def msOfIso (s : String) : Nat :=
  Nat.ofDigits 10 ((s.toList.map fun c => c.toNat - 48).reverse)

/-- JSON shape of a `Message` produced by `JSON.stringify` (a `Date` field
serializes through `toISOString`). -/
def encodeMessage (m : Message) : Json :=
  Json.obj [("id", Json.str m.id), ("content", Json.str m.content),
            ("isBot", Json.bool m.isBot), ("timestamp", Json.str (isoOfMs m.timestamp))]

/-- JSON shape of a `ChatHistory` produced by `JSON.stringify`. -/
def encodeChat (c : ChatHistory) : Json :=
  Json.obj [("id", Json.str c.id), ("title", Json.str c.title),
            ("messages", Json.arr (c.messages.map encodeMessage)),
            ("createdAt", Json.str (isoOfMs c.createdAt))]

/-- JSON shape of the persisted chat-history array. -/
def encodeHistory (h : List ChatHistory) : Json :=
  Json.arr (h.map encodeChat)

/-- JSON shape of the persisted user blob written by Login.tsx and by
`handleSendMessage`. -/
def encodeUser (u : UserData) : Json :=
  Json.obj [("username", Json.str u.username), ("role", Json.str u.role),
            ("questionsToday", Json.num u.questionsToday)]

/-- Model of `Array.prototype.map` with a callback that can throw: the first thrown
error aborts the whole map. -/
def mapE (f : α → Except String β) : List α → Except String (List β)
  | [] => Except.ok []
  | x :: xs => do
    let y ← f x
    let ys ← mapE f xs
    Except.ok (y :: ys)

/-- The per-message rehydration done in the Chat `useEffect`:
`(msg) => (\x7b ...msg, timestamp: new Date(msg.timestamp) \x7d)`, read back
into the typed `Message` shape.  A value that does not have the shape the
component itself persists makes the surrounding dynamic code throw. -/
def decodeMessage : Json → Except String Message
  | Json.obj fs =>
    match jGet fs "id", jGet fs "content", jGet fs "isBot", jGet fs "timestamp" with
    | some (Json.str i), some (Json.str c), some (Json.bool b), some (Json.str t) =>
      Except.ok { id := i, content := c, isBot := b, timestamp := msOfIso t }
    | _, _, _, _ => Except.error "TypeError: malformed message"
  | _ => Except.error "TypeError: malformed message"

/-- The per-chat rehydration done in the Chat `useEffect`:
`(chat) => (\x7b ...chat, createdAt: new Date(chat.createdAt),
messages: chat.messages.map(...) \x7d)`. -/
def decodeChat : Json → Except String ChatHistory
  | Json.obj fs =>
    match jGet fs "id", jGet fs "title", jGet fs "messages", jGet fs "createdAt" with
    | some (Json.str i), some (Json.str ti), some (Json.arr ms), some (Json.str ca) => do
      let msgs ← mapE decodeMessage ms
      Except.ok { id := i, title := ti, messages := msgs, createdAt := msOfIso ca }
    | _, _, _, _ => Except.error "TypeError: malformed chat"
  | _ => Except.error "TypeError: malformed chat"

/-- Rehydration of the whole persisted history array:
`parsedHistory.map(chat => ...)`; `.map` on a non-array throws. -/
def decodeHistory : Json → Except String (List ChatHistory)
  | Json.arr cs => mapE decodeChat cs
  | _ => Except.error "TypeError: parsedHistory.map is not a function"

/-- Model of JS `String.prototype.trim`: drop leading and trailing
whitespace.  (Defined by structural recursion on the character list so that
concrete runs reduce inside the kernel; `String.trim` of the standard
library is extensionally the same but defined by well-founded recursion on
byte positions.) -/
def jsTrim (s : String) : String :=
  String.mk (((s.toList.dropWhile Char.isWhitespace).reverse.dropWhile
    Char.isWhitespace).reverse)

/-- Function `canAskQuestion` of Chat: false with no user, unconditionally true for
role "admin", otherwise `questionsToday < 10`. -/
def canAskQuestion (user : Option UserData) : Bool :=
  match user with
  | none => false
  | some u => if u.role = "admin" then true else u.questionsToday < 10

/-- JS `s.slice(0, n)`: the first `n` characters (the whole string when it is
shorter). -/
def jsSlice (s : String) (n : Nat) : String :=
  String.mk (s.toList.take n)

/-- The `chatTitle` expression of `handleSendMessage`:
`userMessage.content.slice(0, 30) + (userMessage.content.length > 30 ? "..." : "")`. -/
def chatTitle (content : String) : String :=
  jsSlice content 30 ++ (if 30 < content.length then "..." else "")

/-- Function `generateChatId`: `Date.now()` and the `Math.random()`-derived suffix are
explicit inputs. -/
def generateChatId (now : Nat) (suffix : String) : String :=
  "chat-" ++ toString now ++ "-" ++ suffix

/-- Function `generateBotResponse`: the five template strings, with the
`Math.floor(Math.random() * responses.length)` index an explicit input
`pick < 5`. -/
def generateBotResponse (userMessage : String) (pick : Nat) : String :=
  let responses : List String :=
    [ "I understand your question about: " ++ jsSlice userMessage 30 ++ "... Let me help you with that.",
      "That is an interesting point! Here is what I think about " ++ jsSlice userMessage 20 ++ "...",
      "Based on your question, I can provide some insights on this topic.",
      "Thank you for asking! This is a great question that requires careful consideration.",
      "I can help you with that. Let me break down the information for you." ]
  responses.getD pick ""

/-- Browser-provided durable state: `localStorage` (string keys to raw text
blobs) and cookies (used by `authService` in src/src/lib/auth.ts). -/
structure Store where
  localStorage : String → Option Blob
  cookies : String → Option String

/-- Operation `localStorage.setItem`. -/
def setLocal (st : Store) (k : String) (v : Blob) : Store :=
  { st with localStorage := fun q => if q = k then some v else st.localStorage q }

/-- Operation `localStorage.removeItem`. -/
def removeLocal (st : Store) (k : String) : Store :=
  { st with localStorage := fun q => if q = k then none else st.localStorage q }

/-- The mutable React state of the `Chat` component together with the durable
store it reads and writes. -/
structure ChatState where
  user : Option UserData
  currentMessage : String
  chatHistory : List ChatHistory
  activeChat : Option String
  currentMessages : List Message
  store : Store

/-- The ambient nondeterminism of one `handleSendMessage` run: `Date.now()`
at send time, the clock when the 1500 ms `setTimeout` callback fires, and the
two `Math.random()` draws. -/
structure SendEnv where
  now : Nat
  botTime : Nat
  botPick : Nat
  randSuffix : String

/-- Function `handleSendMessage` of Chat, including the work done in its `setTimeout`
callback (the callback runs unconditionally after the delay; the claims here
concern the state after it has fired).  Mirrors the source line by line:
guard, user message append, unconditional `questionsToday + 1`, user blob
persist, bot reply append, title computation, then either the
update-existing-chat branch or the new-chat branch, each persisting the
history blob under the key `chatHistory_` + username. -/
def handleSendMessage (env : SendEnv) (s : ChatState) : ChatState :=
  match s.user with
  | none => s
  | some u =>
    if jsTrim s.currentMessage = "" then s
    else if !canAskQuestion (some u) then s
    else
      let userMessage : Message :=
        { id := toString env.now, content := s.currentMessage,
          isBot := false, timestamp := env.now }
      let updatedMessages := s.currentMessages ++ [userMessage]
      let updatedUser : UserData := { u with questionsToday := u.questionsToday + 1 }
      let store1 := setLocal s.store "user" (jsonStringify (encodeUser updatedUser))
      let botMessage : Message :=
        { id := toString (env.botTime + 1),
          content := generateBotResponse userMessage.content env.botPick,
          isBot := true, timestamp := env.botTime }
      let updatedMessages2 := updatedMessages ++ [botMessage]
      let title := chatTitle userMessage.content
      match s.activeChat with
      | some ac =>
        let updatedHistory := s.chatHistory.map fun chat =>
          if chat.id = ac then { chat with messages := updatedMessages2, title := title }
          else chat
        { s with user := some updatedUser, currentMessage := "",
                 currentMessages := updatedMessages2, chatHistory := updatedHistory,
                 store := setLocal store1 ("chatHistory_" ++ u.username)
                           (jsonStringify (encodeHistory updatedHistory)) }
      | none =>
        let newChat : ChatHistory :=
          { id := generateChatId env.botTime env.randSuffix, title := title,
            messages := updatedMessages2, createdAt := env.botTime }
        let updatedHistory := newChat :: s.chatHistory
        { s with user := some updatedUser, currentMessage := "",
                 currentMessages := updatedMessages2, chatHistory := updatedHistory,
                 activeChat := some newChat.id,
                 store := setLocal store1 ("chatHistory_" ++ u.username)
                           (jsonStringify (encodeHistory updatedHistory)) }

/-- Typing a message body into the input box and pressing send. -/
def sendWith (env : SendEnv) (b : String) (s : ChatState) : ChatState :=
  handleSendMessage env { s with currentMessage := b }

/-- Iterated sends: `n` consecutive sends of the same body (the iteration of Scenarios 2
and 3). -/
def sendN (env : SendEnv) (b : String) : Nat → ChatState → ChatState
  | 0, s => s
  | n + 1, s => sendN env b n (sendWith env b s)

/-- Function `startNewChat` of Chat. -/
def startNewChat (s : ChatState) : ChatState :=
  { s with activeChat := none, currentMessages := [] }

/-- Function `handleLogout` of Chat: `localStorage.removeItem("user")` (the navigation
is view-layer only). -/
def handleLogout (s : ChatState) : ChatState :=
  { s with store := removeLocal s.store "user" }

/-- Function `authService.isAuthenticated` of src/src/lib/auth.ts: truthiness of the
`auth_token` cookie. -/
def isAuthenticated (st : Store) : Bool :=
  (st.cookies "auth_token").isSome

/-- The user blob built by `handleLogin` in src/src/pages/Login.tsx:
`\x7b username, role: username.toLowerCase(), questionsToday: 0 \x7d`. -/
def loginUser (username : String) : UserData :=
  { username := username, role := username.toLower, questionsToday := 0 }

/-- Function `handleLogin` of Login.tsx: with truthy (non-empty) username and
password it persists the user blob under the key "user"; otherwise nothing
is stored. -/
def handleLogin (username password : String) (st : Store) : Store :=
  if !username.isEmpty && !password.isEmpty then
    setLocal st "user" (jsonStringify (encodeUser (loginUser username)))
  else st

/-- The session read at the top of the Chat `useEffect`:
`localStorage.getItem("user")`, falsy means absent (the component
navigates away), otherwise `JSON.parse` runs with no try/catch; the parsed
value is used as-is (no shape validation). -/
def getSession (stored : Option Blob) : Except String (Option Json) :=
  match stored with
  | none => Except.ok none
  | some b =>
    if blobTruthy b then (jsonParse b).map some
    else Except.ok none

/-- The history load in the Chat `useEffect`: a falsy
`localStorage.getItem` leaves the history at its initial `[]`; otherwise
`JSON.parse` runs with no try/catch, followed by the date rehydration map. -/
def loadHistory (saved : Option Blob) : Except String (List ChatHistory) :=
  match saved with
  | none => Except.ok []
  | some b =>
    if blobTruthy b then do
      let j ← jsonParse b
      decodeHistory j
    else Except.ok []

/-- The user `Message` literal built by `handleSendMessage` when the input
box holds `b`. -/
def userMsgOf (env : SendEnv) (b : String) : Message :=
  { id := toString env.now, content := b, isBot := false, timestamp := env.now }

/-- The bot `Message` literal built in the `setTimeout` callback of
`handleSendMessage` when the input box held `b`. -/
def botMsgOf (env : SendEnv) (b : String) : Message :=
  { id := toString (env.botTime + 1), content := generateBotResponse b env.botPick,
    isBot := true, timestamp := env.botTime }

/-- The `newChat` literal built by the new-chat branch of
`handleSendMessage` when the input box held `b` in state `s`. -/
def newChatOf (env : SendEnv) (b : String) (s : ChatState) : ChatHistory :=
  { id := generateChatId env.botTime env.randSuffix, title := chatTitle b,
    messages := s.currentMessages ++ [userMsgOf env b, botMsgOf env b],
    createdAt := env.botTime }

/-- An empty browser store. -/
def emptyStore : Store :=
  { localStorage := fun _ => none, cookies := fun _ => none }

/-- A fixed ambient environment for concrete runs. -/
def env0 : SendEnv :=
  { now := 1000, botTime := 2500, botPick := 0, randSuffix := "abc123xyz" }

/-- The demo viewer user right after login. -/
def viewerU : UserData :=
  { username := "viewer", role := "viewer", questionsToday := 0 }

/-- The demo admin user right after login. -/
def adminU : UserData :=
  { username := "admin", role := "admin", questionsToday := 0 }

/-- Fresh chat screen for the viewer. -/
def viewerState0 : ChatState :=
  { user := some viewerU, currentMessage := "", chatHistory := [],
    activeChat := none, currentMessages := [], store := emptyStore }

/-- Fresh chat screen for the admin. -/
def adminState0 : ChatState :=
  { user := some adminU, currentMessage := "", chatHistory := [],
    activeChat := none, currentMessages := [], store := emptyStore }

/-- An existing transcript whose first (and so far only) user turn is "A". -/
def chatA : ChatHistory :=
  { id := "c1", title := "A",
    messages := [ { id := "1", content := "A", isBot := false, timestamp := 10 },
                  { id := "2", content := "reply", isBot := true, timestamp := 20 } ],
    createdAt := 10 }

/-- Viewer screen with `chatA` open as the active chat. -/
def stateA : ChatState :=
  { user := some viewerU, currentMessage := "", chatHistory := [chatA],
    activeChat := some "c1", currentMessages := chatA.messages, store := emptyStore }

/-- A store as it looks for a logged-in viewer with an auth cookie and a
persisted (empty) transcript index. -/
def cookieStore : Store :=
  { localStorage := fun k =>
      if k = "user" then some (jsonStringify (encodeUser viewerU))
      else if k = "chatHistory_viewer" then some (jsonStringify (encodeHistory []))
      else none,
    cookies := fun k => if k = "auth_token" then some "tok" else none }

/-- Viewer screen backed by `cookieStore`. -/
def loggedInState : ChatState :=
  { user := some viewerU, currentMessage := "", chatHistory := [],
    activeChat := none, currentMessages := [], store := cookieStore }

/-! ## Helper lemmas -/

theorem bindOk (a : α) (f : α → Except String β) : (Except.ok a >>= f) = f a := rfl

theorem msOfIso_isoOfMs (t : Nat) : msOfIso (isoOfMs t) = t := by
  have key : ∀ d, d < 10 → (Char.ofNat (48 + d)).toNat - 48 = d := by decide
  unfold msOfIso isoOfMs
  rw [show (String.mk (((Nat.digits 10 t).map fun d => Char.ofNat (48 + d)).reverse)).toList
        = ((Nat.digits 10 t).map fun d => Char.ofNat (48 + d)).reverse from rfl]
  rw [List.map_reverse, List.reverse_reverse, List.map_map]
  have h2 : ∀ d ∈ Nat.digits 10 t,
      ((fun c => Char.toNat c - 48) ∘ fun d => Char.ofNat (48 + d)) d = id d :=
    fun d hd => key d (Nat.digits_lt_base (by norm_num) hd)
  rw [List.map_congr_left h2, List.map_id, Nat.ofDigits_digits]

theorem decodeMessage_encodeMessage (m : Message) :
    decodeMessage (encodeMessage m) = Except.ok m := by
  rw [show decodeMessage (encodeMessage m)
        = Except.ok { id := m.id, content := m.content, isBot := m.isBot,
                      timestamp := msOfIso (isoOfMs m.timestamp) } from rfl,
      msOfIso_isoOfMs]

theorem mapE_encode_msgs (ms : List Message) :
    mapE decodeMessage (ms.map encodeMessage) = Except.ok ms := by
  induction ms with
  | nil => rfl
  | cons m tl ih =>
    simp [mapE, decodeMessage_encodeMessage, ih]
    rfl

theorem decodeChat_encodeChat (c : ChatHistory) :
    decodeChat (encodeChat c) = Except.ok c := by
  rw [show decodeChat (encodeChat c)
        = (mapE decodeMessage (c.messages.map encodeMessage) >>= fun msgs =>
            Except.ok { id := c.id, title := c.title, messages := msgs,
                        createdAt := msOfIso (isoOfMs c.createdAt) }) from rfl,
      mapE_encode_msgs, bindOk]
  rw [msOfIso_isoOfMs]

theorem mapE_encode_chats (cs : List ChatHistory) :
    mapE decodeChat (cs.map encodeChat) = Except.ok cs := by
  induction cs with
  | nil => rfl
  | cons c tl ih =>
    simp [mapE, decodeChat_encodeChat, ih]
    rfl

/-! ## Claim theorems -/

/-- C7: round-trip — serializing any transcript list to the persisted blob
and reloading it through the `useEffect` path (including rehydration of the
serialized timestamps) yields the very same list: identical transcript
order, message order, message identifiers, message bodies, and
millisecond-exact timestamps. -/
theorem history_roundtrip (h : List ChatHistory) :
    loadHistory (some (jsonStringify (encodeHistory h))) = Except.ok h := by
  rw [show loadHistory (some (jsonStringify (encodeHistory h)))
        = (Except.ok (encodeHistory h) >>= fun j => decodeHistory j) from rfl,
      bindOk]
  rw [show decodeHistory (encodeHistory h) = mapE decodeChat (h.map encodeChat) from rfl,
      mapE_encode_chats]

/-- C6: title truncation boundary — a body of at most 30 characters is the
title verbatim with no ellipsis; from 31 characters on, the title is the
30-character head followed by "...". -/
theorem chatTitle_truncation (content : String) :
    (content.length ≤ 30 → chatTitle content = content) ∧
    (31 ≤ content.length →
      chatTitle content = String.mk (content.toList.take 30) ++ "...") := by
  constructor
  · intro h
    have hle : content.toList.length ≤ 30 := h
    unfold chatTitle jsSlice
    rw [if_neg (by omega), List.take_of_length_le hle]
    show String.mk content.toList ++ "" = content
    simp
  · intro h
    unfold chatTitle jsSlice
    rw [if_pos (by omega)]

/-- Witness for C6 at a 30-character and a 31-character body. -/
theorem chatTitle_truncation_witness :
    chatTitle "abcdefghijklmnopqrstuvwxyz0123" = "abcdefghijklmnopqrstuvwxyz0123" ∧
    chatTitle "abcdefghijklmnopqrstuvwxyz01234"
      = String.mk ("abcdefghijklmnopqrstuvwxyz01234".toList.take 30) ++ "..." :=
  ⟨(chatTitle_truncation "abcdefghijklmnopqrstuvwxyz0123").1 (by decide),
   (chatTitle_truncation "abcdefghijklmnopqrstuvwxyz01234").2 (by decide)⟩

/-- C4, counterexample: a malformed non-empty persisted blob is not treated
as absence — both the session read and the history load end in the
`JSON.parse` error, not in `ok none` / `ok []`. -/
theorem malformed_blob_error_cex :
    loadHistory (some (Blob.malformed "not json"))
      = Except.error "SyntaxError: Unexpected token in JSON" ∧
    getSession (some (Blob.malformed "not json"))
      = Except.error "SyntaxError: Unexpected token in JSON" :=
  ⟨rfl, rfl⟩

/-- C4, amended: a missing (or empty-string, hence falsy) blob is treated as
absence — `getSession` yields no session and `loadHistory` the empty list —
but a malformed non-empty blob makes the unguarded `JSON.parse` throw, and
the error propagates instead of being treated as absence. -/
theorem storage_read_absent_vs_malformed :
    getSession none = Except.ok none ∧
    loadHistory none = Except.ok [] ∧
    getSession (some (Blob.malformed "")) = Except.ok none ∧
    loadHistory (some (Blob.malformed "")) = Except.ok [] ∧
    (∀ raw : String, raw.isEmpty = false →
      getSession (some (Blob.malformed raw))
        = Except.error "SyntaxError: Unexpected token in JSON" ∧
      loadHistory (some (Blob.malformed raw))
        = Except.error "SyntaxError: Unexpected token in JSON") := by
  refine ⟨rfl, rfl, rfl, rfl, ?_⟩
  intro raw hraw
  constructor
  · simp [getSession, blobTruthy, hraw, jsonParse, Except.map]
  · simp [loadHistory, blobTruthy, hraw, jsonParse]
    rfl

/-- Witness for C4 (amended) at a one-character malformed blob. -/
theorem storage_read_absent_vs_malformed_witness :
    getSession (some (Blob.malformed "x"))
      = Except.error "SyntaxError: Unexpected token in JSON" ∧
    loadHistory (some (Blob.malformed "x"))
      = Except.error "SyntaxError: Unexpected token in JSON" :=
  storage_read_absent_vs_malformed.2.2.2.2 "x" rfl

theorem canAskQuestion_nonadmin (u : UserData) (h : u.role ≠ "admin") :
    canAskQuestion (some u) = decide (u.questionsToday < 10) := by
  show (if u.role = "admin" then true else decide (u.questionsToday < 10))
      = decide (u.questionsToday < 10)
  rw [if_neg h]

theorem canAskQuestion_isAdmin (u : UserData) (h : u.role = "admin") :
    canAskQuestion (some u) = true := by
  show (if u.role = "admin" then true else decide (u.questionsToday < 10)) = true
  rw [if_pos h]

theorem sendWith_accept (env : SendEnv) (b : String) (s : ChatState) (u : UserData)
    (hu : s.user = some u) (hb : jsTrim b ≠ "")
    (hq : canAskQuestion (some u) = true) :
    (sendWith env b s).user = some { u with questionsToday := u.questionsToday + 1 } ∧
    (sendWith env b s).currentMessages
      = s.currentMessages ++ [userMsgOf env b, botMsgOf env b] ∧
    (s.activeChat = none →
      (sendWith env b s).chatHistory = newChatOf env b s :: s.chatHistory ∧
      (sendWith env b s).activeChat = some (newChatOf env b s).id) ∧
    (∀ ac, s.activeChat = some ac →
      (sendWith env b s).chatHistory
        = s.chatHistory.map (fun chat =>
            if chat.id = ac
            then { chat with
                   messages := s.currentMessages ++ [userMsgOf env b, botMsgOf env b],
                   title := chatTitle b }
            else chat) ∧
      (sendWith env b s).activeChat = some ac) := by
  obtain ⟨su, cm, ch, ac0, cms, st⟩ := s
  obtain rfl : su = some u := hu
  cases ac0 with
  | none =>
    refine ⟨?_, ?_, ?_, ?_⟩ <;>
      simp [sendWith, handleSendMessage, hb, hq, userMsgOf, botMsgOf, newChatOf]
  | some ac =>
    refine ⟨?_, ?_, ?_, ?_⟩ <;>
      simp [sendWith, handleSendMessage, hb, hq, userMsgOf, botMsgOf]

theorem sendWith_reject (env : SendEnv) (b : String) (s : ChatState) (u : UserData)
    (hu : s.user = some u)
    (h : jsTrim b = "" ∨ canAskQuestion (some u) = false) :
    sendWith env b s = { s with currentMessage := b } := by
  obtain ⟨su, cm, ch, ac0, cms, st⟩ := s
  obtain rfl : su = some u := hu
  rcases h with h | h <;> simp [sendWith, handleSendMessage, h]

theorem sendN_count (env : SendEnv) (b : String) (hb : jsTrim b ≠ "") :
    ∀ (n : Nat) (s : ChatState) (u : UserData), s.user = some u → u.role ≠ "admin" →
      u.questionsToday ≤ 10 →
      (sendN env b n s).user
        = some { u with questionsToday := min (u.questionsToday + n) 10 } ∧
      (sendN env b n s).currentMessages.length
        = s.currentMessages.length
            + 2 * (min (u.questionsToday + n) 10 - u.questionsToday) := by
  intro n
  induction n with
  | zero =>
    intro s u hu hr hc
    constructor
    · show s.user = some { u with questionsToday := min (u.questionsToday + 0) 10 }
      have harith : min (u.questionsToday + 0) 10 = u.questionsToday := by omega
      rw [harith]
      exact hu
    · show s.currentMessages.length
        = s.currentMessages.length
            + 2 * (min (u.questionsToday + 0) 10 - u.questionsToday)
      have harith : min (u.questionsToday + 0) 10 - u.questionsToday = 0 := by omega
      rw [harith]
      omega
  | succ n ih =>
    intro s u hu hr hc
    by_cases hlt : u.questionsToday < 10
    · have hq : canAskQuestion (some u) = true := by
        rw [canAskQuestion_nonadmin u hr]
        simpa using hlt
      obtain ⟨h1, h2, _, _⟩ := sendWith_accept env b s u hu hb hq
      obtain ⟨ihu, ihl⟩ :=
        ih (sendWith env b s) { u with questionsToday := u.questionsToday + 1 } h1 hr
          (show u.questionsToday + 1 ≤ 10 by omega)
      constructor
      · show (sendN env b n (sendWith env b s)).user = _
        rw [ihu]
        show some (UserData.mk u.username u.role (min (u.questionsToday + 1 + n) 10))
          = some (UserData.mk u.username u.role (min (u.questionsToday + (n + 1)) 10))
        have harith : min (u.questionsToday + 1 + n) 10
            = min (u.questionsToday + (n + 1)) 10 := by omega
        rw [harith]
      · show (sendN env b n (sendWith env b s)).currentMessages.length = _
        rw [ihl, h2]
        simp only [List.length_append, List.length_cons, List.length_nil]
        have hge : u.questionsToday + 1 ≤ min (u.questionsToday + (n + 1)) 10 := by omega
        omega
    · have hq : canAskQuestion (some u) = false := by
        rw [canAskQuestion_nonadmin u hr]
        simpa using hlt
      have hrej := sendWith_reject env b s u hu (Or.inr hq)
      obtain ⟨ihu, ihl⟩ := ih { s with currentMessage := b } u hu hr hc
      constructor
      · show (sendN env b n (sendWith env b s)).user = _
        rw [hrej, ihu]
        show some (UserData.mk u.username u.role (min (u.questionsToday + n) 10))
          = some (UserData.mk u.username u.role (min (u.questionsToday + (n + 1)) 10))
        have harith : min (u.questionsToday + n) 10
            = min (u.questionsToday + (n + 1)) 10 := by omega
        rw [harith]
      · show (sendN env b n (sendWith env b s)).currentMessages.length = _
        rw [hrej, ihl]
        show s.currentMessages.length
              + 2 * (min (u.questionsToday + n) 10 - u.questionsToday)
          = s.currentMessages.length
              + 2 * (min (u.questionsToday + (n + 1)) 10 - u.questionsToday)
        omega

theorem sendN_admin (env : SendEnv) (b : String) (hb : jsTrim b ≠ "") :
    ∀ (n : Nat) (s : ChatState) (u : UserData), s.user = some u → u.role = "admin" →
      (sendN env b n s).user = some { u with questionsToday := u.questionsToday + n } ∧
      (sendN env b n s).currentMessages.length
        = s.currentMessages.length + 2 * n := by
  intro n
  induction n with
  | zero =>
    intro s u hu hr
    exact ⟨hu, rfl⟩
  | succ n ih =>
    intro s u hu hr
    have hq := canAskQuestion_isAdmin u hr
    obtain ⟨h1, h2, _, _⟩ := sendWith_accept env b s u hu hb hq
    obtain ⟨ihu, ihl⟩ :=
      ih (sendWith env b s) { u with questionsToday := u.questionsToday + 1 } h1 hr
    constructor
    · show (sendN env b n (sendWith env b s)).user = _
      rw [ihu]
      show some (UserData.mk u.username u.role (u.questionsToday + 1 + n))
        = some (UserData.mk u.username u.role (u.questionsToday + (n + 1)))
      have harith : u.questionsToday + 1 + n = u.questionsToday + (n + 1) := by omega
      rw [harith]
    · show (sendN env b n (sendWith env b s)).currentMessages.length = _
      rw [ihl, h2]
      simp only [List.length_append, List.length_cons, List.length_nil]
      omega

/-- C1: for a non-admin session, a non-empty send is accepted (message pair
appended, count incremented) exactly while `questionsToday < 10`; at 10 and
beyond every send is a no-op (nothing appended, count unchanged), so starting
from a fresh count exactly the first 10 of n sends are accepted and the
count never passes 10. -/
theorem sendMessage_nonadmin_quota (env : SendEnv) (b : String) (s : ChatState)
    (u : UserData) (hu : s.user = some u) (hrole : u.role ≠ "admin")
    (hb : jsTrim b ≠ "") :
    (u.questionsToday < 10 →
      (sendWith env b s).user = some { u with questionsToday := u.questionsToday + 1 } ∧
      (sendWith env b s).currentMessages
        = s.currentMessages ++ [userMsgOf env b, botMsgOf env b]) ∧
    (10 ≤ u.questionsToday →
      sendWith env b s = { s with currentMessage := b }) ∧
    (u.questionsToday = 0 → ∀ n,
      (sendN env b n s).user = some { u with questionsToday := min n 10 } ∧
      (sendN env b n s).currentMessages.length
        = s.currentMessages.length + 2 * min n 10) := by
  refine ⟨?_, ?_, ?_⟩
  · intro hlt
    have hq : canAskQuestion (some u) = true := by
      rw [canAskQuestion_nonadmin u hrole]
      simpa using hlt
    obtain ⟨h1, h2, _, _⟩ := sendWith_accept env b s u hu hb hq
    exact ⟨h1, h2⟩
  · intro hge
    have hq : canAskQuestion (some u) = false := by
      rw [canAskQuestion_nonadmin u hrole]
      simp only [decide_eq_false_iff_not]
      omega
    exact sendWith_reject env b s u hu (Or.inr hq)
  · intro h0 n
    obtain ⟨c1, c2⟩ := sendN_count env b hb n s u hu hrole (by omega)
    constructor
    · rw [c1, show min (u.questionsToday + n) 10 = min n 10 by omega]
    · rw [c2]
      omega

/-- Witness for C1: a viewer sending 11 times ends with count 10 and
10 accepted message pairs. -/
theorem sendMessage_nonadmin_quota_witness :
    (sendN env0 "Hello" 11 viewerState0).user
      = some { viewerU with questionsToday := min 11 10 } ∧
    (sendN env0 "Hello" 11 viewerState0).currentMessages.length
      = viewerState0.currentMessages.length + 2 * min 11 10 :=
  (sendMessage_nonadmin_quota env0 "Hello" viewerState0 viewerU rfl (by decide) (by decide)).2.2
    rfl 11

/-- C2: for an admin session, `canAskQuestion` is true at every count, and
every one of n consecutive non-empty sends is accepted (each appends a
user/bot pair); in particular all 15 of 15 sends are accepted. -/
theorem sendMessage_admin_unlimited (env : SendEnv) (b : String) (s : ChatState)
    (u : UserData) (hu : s.user = some u) (hrole : u.role = "admin")
    (hb : jsTrim b ≠ "") :
    (∀ m, canAskQuestion (some { u with questionsToday := m }) = true) ∧
    (∀ n, (sendN env b n s).currentMessages.length
        = s.currentMessages.length + 2 * n ∧
      (sendN env b n s).user
        = some { u with questionsToday := u.questionsToday + n }) := by
  constructor
  · intro m
    exact canAskQuestion_isAdmin _ hrole
  · intro n
    obtain ⟨c1, c2⟩ := sendN_admin env b hb n s u hu hrole
    exact ⟨c2, c1⟩

/-- Witness for C2: the admin sends 15 messages, all accepted. -/
theorem sendMessage_admin_unlimited_witness :
    (sendN env0 "Hi" 15 adminState0).currentMessages.length
      = adminState0.currentMessages.length + 2 * 15 ∧
    (sendN env0 "Hi" 15 adminState0).user
      = some { adminU with questionsToday := adminU.questionsToday + 15 } :=
  (sendMessage_admin_unlimited env0 "Hi" adminState0 adminU rfl rfl (by decide)).2 15

/-- C3, counterexample: an accepted admin send does change `questionsToday`
— the fresh admin sends once (accepted: two messages appear) and the count
moves from 0 to 1, contradicting "for admin, questionsToday is unchanged by
every accepted send". -/
theorem admin_count_increment_cex :
    (sendWith env0 "Hello" adminState0).currentMessages.length = 2 ∧
    adminState0.user.map UserData.questionsToday = some 0 ∧
    (sendWith env0 "Hello" adminState0).user.map UserData.questionsToday = some 1 :=
  ⟨rfl, rfl, rfl⟩

/-- C3, amended: every accepted send increments the session field
`questionsToday` by one regardless of role — the admin exemption is only
that `canAskQuestion` never gates on the count (so the incremented count has
no effect for admin). -/
theorem sendMessage_increments_count (env : SendEnv) (b : String) (s : ChatState)
    (u : UserData) (hu : s.user = some u) (hb : jsTrim b ≠ "")
    (hq : canAskQuestion (some u) = true) :
    (sendWith env b s).user = some { u with questionsToday := u.questionsToday + 1 } ∧
    (u.role = "admin" → canAskQuestion (some u) = true) :=
  ⟨(sendWith_accept env b s u hu hb hq).1, fun h => canAskQuestion_isAdmin u h⟩

/-- Witness for C3 (amended) at the fresh admin state. -/
theorem sendMessage_increments_count_witness :
    (sendWith env0 "Hello" adminState0).user
      = some { adminU with questionsToday := adminU.questionsToday + 1 } ∧
    (adminU.role = "admin" → canAskQuestion (some adminU) = true) :=
  sendMessage_increments_count env0 "Hello" adminState0 adminU rfl (by decide) rfl

/-- C5, counterexample: a transcript whose first user turn is "A" (title
"A", truncation of "A" is "A") receives a second user turn "B"; afterwards
its user turns are ["A", "B"] but its title is "B" ≠ "A": the title does not
stay derived from the first user message. -/
theorem title_first_message_cex :
    chatTitle "A" = "A" ∧
    (sendWith env0 "B" stateA).chatHistory.map ChatHistory.title = ["B"] ∧
    ((sendWith env0 "B" stateA).chatHistory.map fun c =>
        c.messages.filterMap fun m => if m.isBot then none else some m.content)
      = [["A", "B"]] ∧
    ("B" : String) ≠ "A" :=
  ⟨rfl, rfl, rfl, by decide⟩

/-- C5, amended: on every accepted send into an existing active transcript,
the title of that transcript is overwritten with the truncation of the message
just sent — the title tracks the most recent user message, not the first. -/
theorem title_from_latest_message (env : SendEnv) (b : String) (s : ChatState)
    (u : UserData) (ac : String) (hu : s.user = some u) (hb : jsTrim b ≠ "")
    (hq : canAskQuestion (some u) = true) (ha : s.activeChat = some ac) :
    ∀ c ∈ (sendWith env b s).chatHistory, c.id = ac → c.title = chatTitle b := by
  obtain ⟨_, _, _, hupd⟩ := sendWith_accept env b s u hu hb hq
  obtain ⟨hh, _⟩ := hupd ac ha
  rw [hh]
  intro c hc hcid
  rw [List.mem_map] at hc
  obtain ⟨a, ha2, rfl⟩ := hc
  by_cases hid : a.id = ac
  · rw [if_pos hid]
  · rw [if_neg hid] at hcid
    exact absurd hcid hid

/-- Witness for C5 (amended): the updated transcript of `stateA` after
sending "B" carries title `chatTitle "B"`. -/
theorem title_from_latest_message_witness :
    ({ chatA with
       messages := stateA.currentMessages ++ [userMsgOf env0 "B", botMsgOf env0 "B"],
       title := chatTitle "B" } : ChatHistory).title = chatTitle "B" :=
  title_from_latest_message env0 "B" stateA viewerU "c1" rfl (by decide) rfl rfl
    _ (by decide) rfl

/-- C8: every accepted send appends the user message and then its bot reply,
in that order, at the end of the active buffer (strict append order, user
immediately before bot), and when no chat is active the newly created
transcript is prepended at position 0 of the history with all existing
transcripts shifted after it. -/
theorem ordering_invariant (env : SendEnv) (b : String) (s : ChatState)
    (u : UserData) (hu : s.user = some u) (hb : jsTrim b ≠ "")
    (hq : canAskQuestion (some u) = true) :
    (sendWith env b s).currentMessages
      = s.currentMessages ++ [userMsgOf env b, botMsgOf env b] ∧
    (userMsgOf env b).isBot = false ∧
    (userMsgOf env b).content = b ∧
    (botMsgOf env b).isBot = true ∧
    (s.activeChat = none →
      (sendWith env b s).chatHistory = newChatOf env b s :: s.chatHistory) ∧
    (newChatOf env b s).messages
      = s.currentMessages ++ [userMsgOf env b, botMsgOf env b] ∧
    (∀ ac, s.activeChat = some ac →
      (sendWith env b s).chatHistory
        = s.chatHistory.map (fun chat =>
            if chat.id = ac
            then { chat with
                   messages := s.currentMessages ++ [userMsgOf env b, botMsgOf env b],
                   title := chatTitle b }
            else chat)) := by
  obtain ⟨_, h2, hnew, hupd⟩ := sendWith_accept env b s u hu hb hq
  exact ⟨h2, rfl, rfl, rfl, fun h => (hnew h).1, rfl, fun ac h => (hupd ac h).1⟩

/-- Witness for C8 at the fresh viewer state (new-chat branch). -/
theorem ordering_invariant_witness :
    (sendWith env0 "Hello" viewerState0).chatHistory
      = newChatOf env0 "Hello" viewerState0 :: viewerState0.chatHistory ∧
    (sendWith env0 "Hello" viewerState0).currentMessages
      = viewerState0.currentMessages ++ [userMsgOf env0 "Hello", botMsgOf env0 "Hello"] :=
  ⟨(ordering_invariant env0 "Hello" viewerState0 viewerU rfl (by decide) rfl).2.2.2.2.1 rfl,
   (ordering_invariant env0 "Hello" viewerState0 viewerU rfl (by decide) rfl).1⟩

/-- C9: a successful login stores a session whose role is exactly the
lowercased username (count 0); the password (any truthy one) has no
influence, and the admin quota exemption holds for the stored session at
every count exactly when the lowercased username is "admin". -/
theorem login_role_lowercase (username password : String) (st : Store)
    (hu : username.isEmpty = false) (hp : password.isEmpty = false) :
    (handleLogin username password st).localStorage "user"
      = some (jsonStringify (encodeUser (loginUser username))) ∧
    (loginUser username).role = username.toLower ∧
    ((loginUser username).role = "admin" ↔ username.toLower = "admin") ∧
    (∀ p2 : String, p2.isEmpty = false →
      handleLogin username p2 st = handleLogin username password st) ∧
    ((∀ m, canAskQuestion (some { loginUser username with questionsToday := m }) = true)
      ↔ username.toLower = "admin") := by
  refine ⟨?_, rfl, Iff.rfl, ?_, ?_⟩
  · simp [handleLogin, hu, hp, setLocal]
  · intro p2 hp2
    simp [handleLogin, hu, hp, hp2]
  · constructor
    · intro h
      by_contra hne
      have h10 := h 10
      have hr : ({ loginUser username with questionsToday := 10 } : UserData).role
          ≠ "admin" := hne
      rw [canAskQuestion_nonadmin _ hr] at h10
      simp at h10
    · intro h m
      exact canAskQuestion_isAdmin _ h

/-- Witness for C9 at username "Admin", password "pw". -/
theorem login_role_lowercase_witness :
    (handleLogin "Admin" "pw" emptyStore).localStorage "user"
      = some (jsonStringify (encodeUser (loginUser "Admin"))) ∧
    ((loginUser "Admin").role = "admin" ↔ "Admin".toLower = "admin") :=
  ⟨(login_role_lowercase "Admin" "pw" emptyStore rfl rfl).1,
   (login_role_lowercase "Admin" "pw" emptyStore rfl rfl).2.2.1⟩

/-- C10: logout removes exactly the "user" key from local storage — cookies
(and hence `isAuthenticated`) and every other key, in particular every
per-user `chatHistory_` blob, are untouched. -/
theorem logout_frame (s : ChatState) :
    (handleLogout s).store.cookies = s.store.cookies ∧
    isAuthenticated (handleLogout s).store = isAuthenticated s.store ∧
    (handleLogout s).store.localStorage "user" = none ∧
    (∀ k, k ≠ "user" →
      (handleLogout s).store.localStorage k = s.store.localStorage k) ∧
    (∀ name, (handleLogout s).store.localStorage ("chatHistory_" ++ name)
      = s.store.localStorage ("chatHistory_" ++ name)) := by
  refine ⟨rfl, rfl, ?_, ?_, ?_⟩
  · simp [handleLogout, removeLocal]
  · intro k hk
    simp [handleLogout, removeLocal, hk]
  · intro name
    have hne : ("chatHistory_" ++ name) ≠ "user" := by
      intro h
      have h2 := congrArg String.length h
      rw [String.length_append] at h2
      have h3 : (12 : Nat) + name.length = 4 := h2
      omega
    simp [handleLogout, removeLocal, hne]

/-- Witness for C10 at a logged-in state with an auth cookie and a persisted
transcript blob. -/
theorem logout_frame_witness :
    isAuthenticated (handleLogout loggedInState).store
      = isAuthenticated loggedInState.store ∧
    (handleLogout loggedInState).store.localStorage "chatHistory_viewer"
      = loggedInState.store.localStorage "chatHistory_viewer" ∧
    (handleLogout loggedInState).store.localStorage "auth"
      = loggedInState.store.localStorage "auth" ∧
    (handleLogout loggedInState).store.localStorage "user" = none :=
  ⟨(logout_frame loggedInState).2.1,
   (logout_frame loggedInState).2.2.2.2 "viewer",
   (logout_frame loggedInState).2.2.2.1 "auth" (by decide),
   (logout_frame loggedInState).2.2.1⟩

end QuestLimitChat
